/-
Verification of the gamepad input pipeline, spatial focus navigator and
profile store of the dmx-control-app repository.

The Lean definitions below are a shallow embedding of the Python sources:
  * `src/core/gamepad_manager.py` — `GamepadWorker.run` (hat/axis polling)
    and `GamepadManager` (mappings, analog settings, profile load);
  * `src/core/config_manager.py` — profile store operations;
  * `src/ui/main_window.py` — tab switching and `_navigate_focus`.

Python floats are modelled as rationals (`ℚ`); Python dicts keyed by button
index as association lists; the on-disk profile directory as an association
list from profile name to file content.  Python functions that cannot raise
are total Lean functions; a Python function that can raise an uncaught
exception is modelled with an explicit outcome type.
-/
import Mathlib

namespace DmxControl

/-! ## Hat (d-pad) handling — `GamepadWorker.run`, gamepad_manager.py lines 79-107 -/

/-- A raw hat state, the pygame `(x, y)` tuple. -/
abbrev Hat := ℤ × ℤ

/-- A raw button event emitted by the worker thread. -/
inductive Event where
  | press (b : ℕ)
  | release (b : ℕ)
deriving DecidableEq, Repr

/-- The `hat_buttons` dict of `GamepadWorker.run`: maps each of the 8
non-neutral hat tuples to a virtual button index (12=up, 13=down, 14=left,
15=right; diagonals collapse to their vertical component). -/
def hatButtons (h : Hat) : Option ℕ :=
  if h = (0, 1) then some 12
  else if h = (0, -1) then some 13
  else if h = (-1, 0) then some 14
  else if h = (1, 0) then some 15
  else if h = (1, 1) then some 12
  else if h = (-1, 1) then some 12
  else if h = (1, -1) then some 13
  else if h = (-1, -1) then some 13
  else none

/-- One hat poll iteration (lines 97-107): when the hat tuple changed,
emit a release for the previous tuple's virtual button (if mapped) and then
a press for the new tuple's virtual button (if mapped). -/
def hatStep (last hat : Hat) : List Event :=
  if hat ≠ last then
    (match hatButtons last with
      | some b => [Event.release b]
      | none => []) ++
    (match hatButtons hat with
      | some b => [Event.press b]
      | none => [])
  else []

/-- The event stream produced by polling a sequence of hat samples,
starting from stored state `last` (initially `(0, 0)`, line 31). -/
def hatEvents : Hat → List Hat → List Event
  | _, [] => []
  | last, h :: hs => hatStep last h ++ hatEvents h hs

/-- The set of currently pressed virtual d-pad buttons after applying one
event: a press inserts, a release removes. -/
def applyEvent (s : Finset ℕ) : Event → Finset ℕ
  | Event.press b => insert b s
  | Event.release b => s.erase b

/-- Apply a list of events to a pressed-button set. -/
def applyEvents (s : Finset ℕ) (es : List Event) : Finset ℕ :=
  es.foldl applyEvent s

/-- The pressed set the worker maintains for a given stored hat tuple:
the tuple's virtual button when mapped, else empty. -/
def pressedOf (h : Hat) : Finset ℕ :=
  match hatButtons h with
  | some b => {b}
  | none => ∅

/-! ## Button mapping — `GamepadManager`, gamepad_manager.py lines 128-256 -/

/-- A button mapping: association list from button index to action name
(Python dict with int keys). -/
abbrev ButtonMapping := List (ℕ × String)

/-- Analog settings (`self.analog_settings`). -/
structure AnalogSettings where
  deadzone : ℚ
  sensitivity : ℚ
  invert_y : Bool
deriving DecidableEq, Repr

/-- `DEFAULT_MAPPINGS` (lines 128-145). -/
def DEFAULT_MAPPINGS : ButtonMapping :=
  [(0, "select"), (1, "back"), (2, "refresh"), (3, "context"),
   (4, "prev_tab"), (5, "next_tab"), (6, "modifier"), (7, "none"),
   (8, "reset"), (9, "save"), (10, "none"), (11, "none"),
   (12, "nav_up"), (13, "nav_down"), (14, "nav_left"), (15, "nav_right")]

/-- Default analog settings (lines 156-160): deadzone 0.2, sensitivity 1.0. -/
def defaultAnalog : AnalogSettings := ⟨1/5, 1, false⟩

/-- The mutable state of a `GamepadManager`. -/
structure GMState where
  mappings : ButtonMapping
  analog : AnalogSettings
deriving DecidableEq, Repr

/-- Manager state as initialised before `load_profile` runs (lines 155-160). -/
def initState : GMState := ⟨DEFAULT_MAPPINGS, defaultAnalog⟩

/-- Python `self.mappings.get(button_index, 'none')` (line 186). -/
def mappingsGet (m : ButtonMapping) (i : ℕ) : String :=
  (m.lookup i).getD "none"

/-- `GamepadManager._on_button_pressed` (lines 184-188): look the index up
in the active mapping and emit `(index, action)` unless the action is the
sentinel `'none'`. -/
def onButtonPressed (m : ButtonMapping) (i : ℕ) : Option (ℕ × String) :=
  let action := mappingsGet m i
  if action ≠ "none" then some (i, action) else none

/-! ## Axis pipeline — worker lines 74-77 and `_on_axis_moved` lines 194-205 -/

/-- Worker axis poll (lines 74-77): forward the raw value only when its
absolute value exceeds the deadzone. -/
def workerAxisStep (deadzone : ℚ) (i : ℕ) (v : ℚ) : Option (ℕ × ℚ) :=
  if |v| > deadzone then some (i, v) else none

/-- The `axis_names` dict plus the `f'axis_{axis_index}'` fallback
(lines 203-204). -/
def axisName (i : ℕ) : String :=
  if i = 0 then "left_x"
  else if i = 1 then "left_y"
  else if i = 2 then "right_x"
  else if i = 3 then "right_y"
  else "axis_" ++ toString i

/-- `GamepadManager._on_axis_moved` (lines 194-205): scale by sensitivity,
negate for axes 1 and 3 when invert_y is set, and name the axis. -/
def onAxisMoved (a : AnalogSettings) (i : ℕ) (v : ℚ) : String × ℚ :=
  let v1 := v * a.sensitivity
  let v2 := if a.invert_y ∧ (i = 1 ∨ i = 3) then -v1 else v1
  (axisName i, v2)

/-- The composed axis path: worker deadzone gate, then manager transform. -/
def axisPipeline (deadzone : ℚ) (a : AnalogSettings) (i : ℕ) (v : ℚ) :
    Option (String × ℚ) :=
  (workerAxisStep deadzone i v).map (fun p => onAxisMoved a p.1 p.2)

/-! ## Analog setters and defaults — gamepad_manager.py lines 227-248 -/

/-- `GamepadManager.set_deadzone` (lines 227-231): store
`max(0.0, min(0.5, value))`. -/
def setDeadzone (st : GMState) (v : ℚ) : GMState :=
  { st with analog := { st.analog with deadzone := max 0 (min (1/2) v) } }

/-- `GamepadManager.set_sensitivity` (lines 233-235): store
`max(0.5, min(2.0, value))`. -/
def setSensitivity (st : GMState) (v : ℚ) : GMState :=
  { st with analog := { st.analog with sensitivity := max (1/2) (min 2 v) } }

/-- `GamepadManager.reset_to_defaults` (lines 241-248). -/
def resetToDefaults (_st : GMState) : GMState :=
  ⟨DEFAULT_MAPPINGS, ⟨1/5, 1, false⟩⟩

/-! ## Profile store — config_manager.py -/

/-- A stored profile as `GamepadManager.load_profile` consumes it: the
`'buttons'` and `'analog'` keys may each be absent (`profile.get` with a
default, lines 255-256). -/
structure ProfileData where
  buttons : Option ButtonMapping
  analog : Option AnalogSettings
deriving DecidableEq, Repr

/-- Content of one profile file on disk, split by how reading it in
Python ends: `unreadable` — `open`/read raises `IOError` (caught);
`undecodable` — the bytes are not valid UTF-8, so `json.load` raises
`UnicodeDecodeError`, which is neither a `json.JSONDecodeError` nor an
`IOError` and is NOT caught; `badJson` — UTF-8 text that fails JSON
parsing, raising `json.JSONDecodeError` (caught); `valid` — a decoded
profile. -/
inductive ProfileFile where
  | unreadable
  | undecodable
  | badJson
  | valid (p : ProfileData)
deriving DecidableEq, Repr

/-- The profiles directory: file name (without extension) to file content. -/
abbrev ProfileStore := List (String × ProfileFile)

/-- Outcome of `get_gamepad_profile`: a normal return (a profile or
`None`), or an uncaught exception propagating to the caller. -/
inductive ProfileReadOutcome where
  | ok (p : Option ProfileData)
  | raised
deriving DecidableEq, Repr

/-- `ConfigManager.get_gamepad_profile` (lines 157-169): default the name to
the active profile; a missing file returns `None` (the `os.path.exists`
guard), `IOError` and `json.JSONDecodeError` are caught and collapse to
`None`, but a non-UTF-8 file's `UnicodeDecodeError` escapes the
`except (json.JSONDecodeError, IOError)` clause and propagates. -/
def getGamepadProfile (store : ProfileStore) (active : String)
    (name : Option String) : ProfileReadOutcome :=
  match store.lookup (name.getD active) with
  | none => ProfileReadOutcome.ok none
  | some ProfileFile.unreadable => ProfileReadOutcome.ok none
  | some ProfileFile.undecodable => ProfileReadOutcome.raised
  | some ProfileFile.badJson => ProfileReadOutcome.ok none
  | some (ProfileFile.valid p) => ProfileReadOutcome.ok (some p)

/-- Outcome of `load_profile`: a normal return or an uncaught exception,
each recording the manager state after the call (on a raise the
assignments never ran, so the state is unchanged). -/
inductive LoadOutcome where
  | ret (st : GMState)
  | raised (st : GMState)
deriving DecidableEq, Repr

/-- The manager state (`self.mappings` / `self.analog_settings`) after a
`load_profile` call, whether or not an exception propagated. -/
def LoadOutcome.state : LoadOutcome → GMState
  | LoadOutcome.ret st => st
  | LoadOutcome.raised st => st

/-- `GamepadManager.load_profile` (lines 250-256): when the store yields a
profile, replace the mappings (defaulting to `DEFAULT_MAPPINGS`) and the
analog settings (defaulting to the current ones); a `None` profile leaves
the state untouched; an exception out of `get_gamepad_profile` propagates
with the state untouched.  (Model restriction, exercised by no theorem
here: the embedding types a stored profile's `buttons` with the manager's
ℕ keys, while a JSON-loaded Python dict carries string keys.) -/
def loadProfile (store : ProfileStore) (active : String)
    (name : Option String) (st : GMState) : LoadOutcome :=
  match getGamepadProfile store active name with
  | ProfileReadOutcome.raised => LoadOutcome.raised st
  | ProfileReadOutcome.ok none => LoadOutcome.ret st
  | ProfileReadOutcome.ok (some p) =>
      LoadOutcome.ret ⟨p.buttons.getD DEFAULT_MAPPINGS, p.analog.getD st.analog⟩

/-- The built-in profile names (config_manager.py line 179). -/
def builtinNames : List String := ["default", "xbox", "playstation"]

/-- `ConfigManager.get_profile_list` (lines 149-155): the sorted file
names.  (`mergeSort` models Python's `sorted`; only membership matters to
the claims.) -/
def getProfileList (store : ProfileStore) : List String :=
  (store.map Prod.fst).mergeSort (· ≤ ·)

/-- `ConfigManager.delete_gamepad_profile` (lines 177-186): refuse the
built-in names, delete an existing file and return True, return False when
the file does not exist.  Total: raises nothing. -/
def deleteGamepadProfile (store : ProfileStore) (name : String) :
    Bool × ProfileStore :=
  if name ∈ builtinNames then (false, store)
  else if (store.lookup name).isSome then
    (true, store.filter (fun e => e.1 ≠ name))
  else (false, store)

/-! ## Profile import — config_manager.py lines 196-214 -/

/-- A JSON value, as `json.load` produces it. -/
inductive Json where
  | obj (fields : List (String × Json))
  | arr (xs : List Json)
  | str (s : String)
  | num (q : ℚ)
  | bool (b : Bool)
  | null

/-- Python dict assignment `d[k] = v`: replace the first binding of `k`,
else append. -/
def setKey (k : String) (v : Json) : List (String × Json) → List (String × Json)
  | [] => [(k, v)]
  | (k', v') :: rest =>
      if k' = k then (k, v) :: rest else (k', v') :: setKey k v rest

/-- The raw profiles directory as `import_profile` writes it: name to JSON
document. -/
abbrev RawStore := List (String × Json)

/-- `ConfigManager.save_gamepad_profile` (lines 171-175): write the file. -/
def saveGamepadProfile (store : RawStore) (name : String) (p : Json) : RawStore :=
  setKey name p store

/-- What reading the import file yields: an IO error (caught), bytes that
are not valid UTF-8 — `json.load` raises `UnicodeDecodeError`, which is
neither a `json.JSONDecodeError` nor an `IOError`, so the `except` clause
does not catch it — a UTF-8 text that fails JSON parsing (caught), or a
decoded JSON value. -/
inductive FileRead where
  | ioErr
  | notUtf8
  | badJson
  | json (j : Json)

/-- Outcome of `import_profile`: a normal return with the boolean result
and the resulting profile directory, or an uncaught exception (the
directory it leaves behind recorded alongside). -/
inductive ImportOutcome where
  | ret (b : Bool) (store : RawStore)
  | raised (store : RawStore)

/-- `ConfigManager.import_profile` (lines 205-214): read and decode the
file; `JSONDecodeError` and `IOError` are caught and reported as `False`
with no write; a non-UTF-8 file's `UnicodeDecodeError` escapes uncaught,
also before any write.  On a decoded value the code runs
`profile['name'] = name`: item assignment succeeds only on a dict — on
any other JSON value Python raises `TypeError`, which the `except` clause
does not catch, and the save never runs. -/
def importProfile (store : RawStore) (file : FileRead) (name : String) :
    ImportOutcome :=
  match file with
  | FileRead.ioErr => ImportOutcome.ret false store
  | FileRead.notUtf8 => ImportOutcome.raised store
  | FileRead.badJson => ImportOutcome.ret false store
  | FileRead.json j =>
    match j with
    | Json.obj fields =>
        ImportOutcome.ret true
          (saveGamepadProfile store name (Json.obj (setKey "name" (Json.str name) fields)))
    | _ => ImportOutcome.raised store

/-! ## Spatial focus navigation — main_window.py lines 209-265 -/

/-- A navigation direction. -/
inductive Dir where
  | up
  | down
  | left
  | right
deriving DecidableEq, Repr

/-- A focusable element identified by its global center point (Qt `QPoint`
coordinates are integers). -/
structure Pt where
  x : ℤ
  y : ℤ
deriving DecidableEq, Repr

/-- The `in_direction` test of `_navigate_focus` (lines 246-258): the
displacement must exceed 20 units along the direction's primary axis. -/
def inDirection (d : Dir) (dx dy : ℤ) : Bool :=
  match d with
  | Dir.down => dy > 20
  | Dir.up => dy < -20
  | Dir.right => dx > 20
  | Dir.left => dx < -20

/-- The score of `_navigate_focus` (lines 249-258): primary-axis distance
plus twice the absolute perpendicular-axis distance. -/
def score (d : Dir) (dx dy : ℤ) : ℤ :=
  match d with
  | Dir.down => dy + |dx| * 2
  | Dir.up => -dy + |dx| * 2
  | Dir.right => dx + |dy| * 2
  | Dir.left => -dx + |dy| * 2

/-- Score of a candidate relative to the current element. -/
def scoreOf (cur : Pt) (d : Dir) (w : Pt) : ℤ :=
  score d (w.x - cur.x) (w.y - cur.y)

/-- `inDirection` of a candidate relative to the current element. -/
def inDirOf (cur : Pt) (d : Dir) (w : Pt) : Bool :=
  inDirection d (w.x - cur.x) (w.y - cur.y)

/-- One iteration of the candidate loop (lines 237-262): replace the best
candidate when this one is in direction and strictly improves the score
(`score < best_score`, with `best_score` initially infinite — modelled by
`none`). -/
def navStep (cur : Pt) (d : Dir) (acc : Option (Pt × ℤ)) (w : Pt) :
    Option (Pt × ℤ) :=
  if inDirOf cur d w &&
      (match acc with
        | none => true
        | some (_, bs) => scoreOf cur d w < bs) then
    some (w, scoreOf cur d w)
  else acc

/-- `_navigate_focus` restricted to its geometric core: fold over the
candidates in traversal order and focus the winner, if any. -/
def navigateFocus (cur : Pt) (cands : List Pt) (d : Dir) : Option Pt :=
  (cands.foldl (navStep cur d) none).map Prod.fst

/-- Modelled from the spec: the first element of the list attaining the
minimal value of `f` (ties won by the earlier element), used as the
specification-side description of the candidate loop. -/
def firstArgmin (f : Pt → ℤ) : List Pt → Option Pt
  | [] => none
  | w :: ws =>
    match firstArgmin f ws with
    | none => some w
    | some b => if f w ≤ f b then some w else some b

/-! ## Tab switching — main_window.py lines 171-181 -/

/-- The tab bar state: number of tabs and current index. -/
structure TabState where
  count : ℤ
  current : ℤ
deriving DecidableEq, Repr

/-- `MainWindow.prev_tab` (lines 171-175): `(current - 1) % count` with
Python's modulo (sign of the divisor; `Int.emod` agrees for positive
count). -/
def prevTab (st : TabState) : TabState :=
  { st with current := (st.current - 1) % st.count }

/-- `MainWindow.next_tab` (lines 177-181): `(current + 1) % count`. -/
def nextTab (st : TabState) : TabState :=
  { st with current := (st.current + 1) % st.count }

/-! ## C1 — hat transitions that collapse to the same virtual button -/

/-- C1, counterexample: the hat transition (0,1) → (1,1) collapses to the
same virtual button 12 on both sides, yet the poller emits a redundant
release(12) followed by press(12) — not no events, as claimed. -/
theorem c1_same_button_counterexample :
    hatButtons (0, 1) = some 12 ∧ hatButtons (1, 1) = some 12 ∧
    hatStep (0, 1) (1, 1) = [Event.release 12, Event.press 12] ∧
    hatStep (0, 1) (1, 1) ≠ [] := by
  refine ⟨rfl, rfl, rfl, by decide⟩

/-- C1, amended: for every hat transition between distinct raw tuples that
collapse to the same virtual button, the poller emits a release of that
button immediately followed by a press of the same button (a redundant
release/press pair), because the change guard compares raw tuples, not
collapsed buttons. -/
theorem c1_same_button_redundant_pair (last h : Hat) (b : ℕ)
    (hne : h ≠ last) (hl : hatButtons last = some b)
    (hh : hatButtons h = some b) :
    hatStep last h = [Event.release b, Event.press b] := by
  simp [hatStep, hne, hl, hh]

/-- C1 witness: the amended statement at the transition (0,1) → (1,1). -/
theorem c1_same_button_redundant_pair_witness :
    ((1, 1) : Hat) ≠ (0, 1) ∧
    hatStep (0, 1) (1, 1) = [Event.release 12, Event.press 12] :=
  ⟨by decide, c1_same_button_redundant_pair (0, 1) (1, 1) 12 (by decide) rfl rfl⟩

/-! ## C2 — button press to action lookup -/

/-- C2: processing a raw button press emits `(index, action)` exactly when
the index is bound in the active mapping to an action other than the
sentinel `'none'`; an unbound index (the dict lookup defaults to `'none'`)
or a `'none'` binding emits nothing.  The mapping is universally
quantified, so this covers every active mapping, including one installed
by `load_profile`. -/
theorem c2_button_press_action (m : ButtonMapping) (i : ℕ) :
    (∀ a, m.lookup i = some a → a ≠ "none" → onButtonPressed m i = some (i, a)) ∧
    (m.lookup i = none → onButtonPressed m i = none) ∧
    (m.lookup i = some "none" → onButtonPressed m i = none) := by
  refine ⟨?_, ?_, ?_⟩
  · intro a ha hne
    simp [onButtonPressed, mappingsGet, ha, hne]
  · intro ha
    simp [onButtonPressed, mappingsGet, ha]
  · intro ha
    simp [onButtonPressed, mappingsGet, ha]

/-- C2 witness: on the default mapping, button 0 (bound to "select")
emits, button 99 (unbound) does not, button 7 (bound to "none") does not. -/
theorem c2_button_press_action_witness :
    onButtonPressed DEFAULT_MAPPINGS 0 = some (0, "select") ∧
    onButtonPressed DEFAULT_MAPPINGS 99 = none ∧
    onButtonPressed DEFAULT_MAPPINGS 7 = none :=
  ⟨(c2_button_press_action DEFAULT_MAPPINGS 0).1 "select" rfl (by decide),
   (c2_button_press_action DEFAULT_MAPPINGS 99).2.1 rfl,
   (c2_button_press_action DEFAULT_MAPPINGS 7).2.2 rfl⟩

/-! ## C3 — axis deadzone, sensitivity and inversion -/

/-- C3: an axis sample within the deadzone emits nothing; a sample beyond
the deadzone emits an event named left_x/left_y/right_x/right_y for axes
0–3 (a generic indexed name otherwise) whose value is the raw value times
the sensitivity, negated when invert_y is set and the axis is 1 or 3. -/
theorem c3_axis_pipeline (dz s : ℚ) (inv : Bool) (i : ℕ) (v : ℚ) :
    (|v| ≤ dz → axisPipeline dz ⟨dz, s, inv⟩ i v = none) ∧
    (dz < |v| →
      axisPipeline dz ⟨dz, s, inv⟩ i v =
        some (axisName i, if inv ∧ (i = 1 ∨ i = 3) then -(v * s) else v * s)) ∧
    axisName 0 = "left_x" ∧ axisName 1 = "left_y" ∧
    axisName 2 = "right_x" ∧ axisName 3 = "right_y" ∧
    (4 ≤ i → axisName i = "axis_" ++ toString i) := by
  refine ⟨?_, ?_, rfl, rfl, rfl, rfl, ?_⟩
  · intro hle
    simp [axisPipeline, workerAxisStep, not_lt.mpr hle]
  · intro hgt
    simp [axisPipeline, workerAxisStep, hgt, onAxisMoved]
  · intro hi
    have h0 : i ≠ 0 := by omega
    have h1 : i ≠ 1 := by omega
    have h2 : i ≠ 2 := by omega
    have h3 : i ≠ 3 := by omega
    simp [axisName, h0, h1, h2, h3]

/-- C3 witness: deadzone 1/5, sensitivity 2, invert_y set; axis 1 at
value 1/2 emits ("left_y", −1), axis 1 at value 1/10 emits nothing. -/
theorem c3_axis_pipeline_witness :
    axisPipeline (1/5) ⟨1/5, 2, true⟩ 1 (1/2) = some ("left_y", -1) ∧
    axisPipeline (1/5) ⟨1/5, 2, true⟩ 1 (1/10) = none := by
  have ha : |(1 : ℚ)/2| = 1/2 := abs_of_nonneg (by norm_num)
  have hb : |(1 : ℚ)/10| = 1/10 := abs_of_nonneg (by norm_num)
  have h1 := (c3_axis_pipeline (1/5) 2 true 1 (1/2)).2.1 (by rw [ha]; norm_num)
  have h2 := (c3_axis_pipeline (1/5) 2 true 1 (1/10)).1 (by rw [hb]; norm_num)
  refine ⟨?_, h2⟩
  rw [h1]
  norm_num [axisName]

/-! ## C4 — clamping of deadzone and sensitivity -/

/-- A profile store holding a profile whose analog settings are out of
range, as a hand-edited or imported profile file can be. -/
def outOfRangeStore : ProfileStore :=
  [("bad", ProfileFile.valid ⟨none, some ⟨9/10, 5, false⟩⟩)]

/-- C4, counterexample: `load_profile` returns normally but writes the
profile's analog settings verbatim — loading a profile whose deadzone is
0.9 leaves the stored deadzone at 0.9, outside [0, 0.5], so the claimed
invariant fails for `load_profile`. -/
theorem c4_clamp_counterexample :
    (loadProfile outOfRangeStore "default" (some "bad") initState).state.analog.deadzone
        = 9/10 ∧
    ¬ (loadProfile outOfRangeStore "default" (some "bad") initState).state.analog.deadzone
        ≤ 1/2 := by
  have h : (loadProfile outOfRangeStore "default" (some "bad") initState).state.analog.deadzone
      = 9/10 := rfl
  refine ⟨h, ?_⟩
  rw [h]
  norm_num

/-- C4, amended: `set_deadzone` always stores a deadzone in [0, 0.5]
(clamping: 0.9 ↦ 0.5, −1 ↦ 0) without touching the sensitivity,
`set_sensitivity` always stores a sensitivity in [0.5, 2.0] without
touching the deadzone, and `reset_to_defaults` stores the in-range
defaults 0.2 and 1.0; `load_profile`, however, copies the loaded profile's
analog settings without clamping. -/
theorem c4_clamp_on_write (st : GMState) (v : ℚ) :
    (0 ≤ (setDeadzone st v).analog.deadzone ∧
      (setDeadzone st v).analog.deadzone ≤ 1/2) ∧
    ((setDeadzone st v).analog.sensitivity = st.analog.sensitivity) ∧
    ((1/2 : ℚ) ≤ (setSensitivity st v).analog.sensitivity ∧
      (setSensitivity st v).analog.sensitivity ≤ 2) ∧
    ((setSensitivity st v).analog.deadzone = st.analog.deadzone) ∧
    ((resetToDefaults st).analog.deadzone = 1/5 ∧
      (resetToDefaults st).analog.sensitivity = 1) ∧
    (setDeadzone st (9/10)).analog.deadzone = 1/2 ∧
    (setDeadzone st (-1)).analog.deadzone = 0 ∧
    (loadProfile outOfRangeStore "default" (some "bad") st).state.analog.deadzone = 9/10 := by
  refine ⟨⟨le_max_left 0 _, ?_⟩, rfl, ⟨le_max_left _ _, ?_⟩, rfl, ⟨rfl, rfl⟩, ?_, ?_, rfl⟩
  · exact max_le (by norm_num) (min_le_left _ _)
  · exact max_le (by norm_num) (min_le_left _ _)
  · show max 0 (min (1/2) (9/10)) = (1/2 : ℚ)
    norm_num
  · show max 0 (min (1/2) (-1)) = (0 : ℚ)
    norm_num

/-! ## C7 — missing or malformed profile on load -/

/-- C7, counterexample: a stored profile file whose bytes are not valid
UTF-8 is malformed profile data, yet `load_profile` does not fall back to
the defaults — `json.load` raises `UnicodeDecodeError`, which the
`except (json.JSONDecodeError, IOError)` clause does not catch, and the
exception propagates to the caller. -/
theorem c7_load_counterexample :
    loadProfile [("garbled", ProfileFile.undecodable)] "default"
        (some "garbled") initState = LoadOutcome.raised initState ∧
    loadProfile [("garbled", ProfileFile.undecodable)] "default"
        (some "garbled") initState ≠ LoadOutcome.ret initState := by
  refine ⟨rfl, ?_⟩
  intro h
  exact LoadOutcome.noConfusion h

/-- C7, amended: when the profile file for the requested name is missing,
unreadable (`IOError`), or UTF-8 text that fails JSON parsing
(`json.JSONDecodeError`), `get_gamepad_profile` swallows the error and
`load_profile` returns normally leaving the manager state untouched — in
particular a freshly initialised manager keeps the built-in default
mapping and default analog settings; a stored file whose bytes are not
valid UTF-8, however, makes `load_profile` raise `UnicodeDecodeError` to
the caller (the state still untouched). -/
theorem c7_load_fallback (store : ProfileStore) (active : String)
    (name : Option String) (st : GMState) :
    (store.lookup (name.getD active) = none ∨
        store.lookup (name.getD active) = some ProfileFile.unreadable ∨
        store.lookup (name.getD active) = some ProfileFile.badJson →
      loadProfile store active name st = LoadOutcome.ret st ∧
      loadProfile store active name initState = LoadOutcome.ret initState ∧
      initState.mappings = DEFAULT_MAPPINGS ∧ initState.analog = defaultAnalog) ∧
    (store.lookup (name.getD active) = some ProfileFile.undecodable →
      loadProfile store active name st = LoadOutcome.raised st) := by
  constructor
  · intro h
    have hp : getGamepadProfile store active name = ProfileReadOutcome.ok none := by
      rcases h with h | h | h <;> simp [getGamepadProfile, h]
    exact ⟨by simp [loadProfile, hp], by simp [loadProfile, hp], rfl, rfl⟩
  · intro h
    simp [loadProfile, getGamepadProfile, h]

/-- C7 witness: a missing file ("nope" in an empty store) and a
JSON-invalid file both leave an initial manager at the defaults, while a
non-UTF-8 file raises. -/
theorem c7_load_fallback_witness :
    loadProfile [] "default" (some "nope") initState = LoadOutcome.ret initState ∧
    loadProfile [("broken", ProfileFile.badJson)] "default" (some "broken")
        initState = LoadOutcome.ret initState ∧
    loadProfile [("garbled", ProfileFile.undecodable)] "default" (some "garbled")
        initState = LoadOutcome.raised initState :=
  ⟨((c7_load_fallback [] "default" (some "nope") initState).1 (Or.inl rfl)).1,
   ((c7_load_fallback [("broken", ProfileFile.badJson)] "default"
      (some "broken") initState).1 (Or.inr (Or.inr rfl))).1,
   (c7_load_fallback [("garbled", ProfileFile.undecodable)] "default"
      (some "garbled") initState).2 rfl⟩

/-! ## C8 — importing a file that is not valid profile data -/

/-- C8, counterexample: a file whose contents decode to a JSON array —
valid JSON, but not valid profile data — makes `import_profile` raise an
uncaught `TypeError` at `profile['name'] = name` instead of returning
failure; the claim that it "returns failure to the caller without raising"
is false for such contents. -/
theorem c8_import_counterexample :
    importProfile [] (FileRead.json (Json.arr [])) "x" = ImportOutcome.raised [] ∧
    ¬ ∃ b store, importProfile [] (FileRead.json (Json.arr [])) "x"
        = ImportOutcome.ret b store := by
  refine ⟨rfl, ?_⟩
  rintro ⟨b, store, hres⟩
  simp [importProfile] at hres

/-- C8, amended: when the import file cannot be opened (`IOError`) or its
contents are UTF-8 text that fails JSON parsing (`json.JSONDecodeError`),
`import_profile` returns False and writes nothing; contents that are not
valid UTF-8 raise an uncaught `UnicodeDecodeError`, and contents that
decode to a non-object JSON value raise an uncaught `TypeError` — in both
raise cases also without writing.  (A decoded object, valid profile or
not, is written and reported as success.) -/
theorem c8_import_failure (store : RawStore) (name : String) (j : Json)
    (hne : ∀ fields, j ≠ Json.obj fields) :
    importProfile store FileRead.ioErr name = ImportOutcome.ret false store ∧
    importProfile store FileRead.badJson name = ImportOutcome.ret false store ∧
    importProfile store FileRead.notUtf8 name = ImportOutcome.raised store ∧
    importProfile store (FileRead.json j) name = ImportOutcome.raised store := by
  refine ⟨rfl, rfl, rfl, ?_⟩
  cases j with
  | obj fields => exact absurd rfl (hne fields)
  | arr xs => rfl
  | str s => rfl
  | num q => rfl
  | bool b => rfl
  | null => rfl

/-- C8 witness: the amended statement at a JSON-invalid file, a non-UTF-8
file and an array-valued file, on an empty store. -/
theorem c8_import_failure_witness :
    importProfile [] FileRead.badJson "x" = ImportOutcome.ret false [] ∧
    importProfile [] FileRead.notUtf8 "x" = ImportOutcome.raised [] ∧
    importProfile [] (FileRead.json (Json.arr [])) "x" = ImportOutcome.raised [] :=
  ⟨(c8_import_failure [] "x" (Json.arr []) (fun _ h => Json.noConfusion h)).2.1,
   (c8_import_failure [] "x" (Json.arr []) (fun _ h => Json.noConfusion h)).2.2.1,
   (c8_import_failure [] "x" (Json.arr []) (fun _ h => Json.noConfusion h)).2.2.2⟩

/-! ## C9 — deleting profiles -/

/-- C9: deleting a built-in profile name returns False and leaves the
store unchanged; deleting an existing user-created profile returns True
and removes its name from the profile list; deleting a non-existent
profile returns False and leaves the store unchanged.  The function is
total, so no exception is raised. -/
theorem c9_delete_profile (store : ProfileStore) (name : String) :
    (name ∈ builtinNames → deleteGamepadProfile store name = (false, store)) ∧
    (name ∉ builtinNames → (store.lookup name).isSome →
      (deleteGamepadProfile store name).1 = true ∧
      name ∉ getProfileList (deleteGamepadProfile store name).2) ∧
    (name ∉ builtinNames → store.lookup name = none →
      deleteGamepadProfile store name = (false, store)) := by
  refine ⟨?_, ?_, ?_⟩
  · intro hb
    simp [deleteGamepadProfile, hb]
  · intro hb hex
    refine ⟨by simp [deleteGamepadProfile, hb, hex], ?_⟩
    simp only [deleteGamepadProfile, hb, hex, if_false, if_true]
    intro hmem
    rw [getProfileList, List.mem_mergeSort] at hmem
    rcases List.mem_map.mp hmem with ⟨e, he, hfst⟩
    rcases List.mem_filter.mp he with ⟨_, hkeep⟩
    rw [hfst] at hkeep
    simp at hkeep
  · intro hb hex
    simp [deleteGamepadProfile, hb, hex]

/-- A profile directory holding the built-in "default" profile and a
user-created "racing" profile. -/
def twoProfileStore : ProfileStore :=
  [("default", ProfileFile.valid ⟨some DEFAULT_MAPPINGS, some defaultAnalog⟩),
   ("racing", ProfileFile.valid ⟨none, none⟩)]

/-- C9 witness: in a store holding the built-in "default" and a
user-created "racing", deleting "default" fails and changes nothing,
deleting "racing" succeeds and removes it from the list, and deleting the
absent "ghost" fails. -/
theorem c9_delete_profile_witness :
    deleteGamepadProfile twoProfileStore "default" = (false, twoProfileStore) ∧
    (deleteGamepadProfile twoProfileStore "racing").1 = true ∧
    "racing" ∉ getProfileList (deleteGamepadProfile twoProfileStore "racing").2 ∧
    deleteGamepadProfile twoProfileStore "ghost" = (false, twoProfileStore) := by
  refine ⟨(c9_delete_profile twoProfileStore "default").1 (by decide), ?_, ?_,
    (c9_delete_profile twoProfileStore "ghost").2.2 (by decide) (by decide)⟩
  · exact ((c9_delete_profile twoProfileStore "racing").2.1 (by decide) (by decide)).1
  · exact ((c9_delete_profile twoProfileStore "racing").2.1 (by decide) (by decide)).2

/-! ## C10 — tab switching wraps around -/

/-- C10: with a positive tab count and a current index in range, next_tab
moves to index + 1 except from the last tab, where it wraps to 0, and
prev_tab moves to index − 1 except from the first tab, where it wraps to
the last index — i.e. they compute (current ± 1) mod count with Python's
nonnegative modulo. -/
theorem c10_tab_wraparound (st : TabState) (hn : 0 < st.count)
    (h0 : 0 ≤ st.current) (hc : st.current < st.count) :
    (nextTab st).current
        = (if st.current + 1 = st.count then 0 else st.current + 1) ∧
    (prevTab st).current
        = (if st.current = 0 then st.count - 1 else st.current - 1) := by
  constructor
  · show (st.current + 1) % st.count = _
    by_cases h : st.current + 1 = st.count
    · rw [if_pos h, h, Int.emod_self]
    · rw [if_neg h]
      exact Int.emod_eq_of_lt (by omega) (by omega)
  · show (st.current - 1) % st.count = _
    by_cases h : st.current = 0
    · rw [if_pos h, h]
      have hrw : (0 - 1 : ℤ) = (st.count - 1) + st.count * (-1) := by ring
      rw [hrw, Int.add_mul_emod_self_left]
      exact Int.emod_eq_of_lt (by omega) (by omega)
    · rw [if_neg h]
      exact Int.emod_eq_of_lt (by omega) (by omega)

/-- C10 witness: with the app's 7 tabs, next_tab from the last tab (index
6) lands on 0 and prev_tab from the first tab lands on 6. -/
theorem c10_tab_wraparound_witness :
    (nextTab ⟨7, 6⟩).current = 0 ∧ (prevTab ⟨7, 0⟩).current = 6 := by
  have h1 := (c10_tab_wraparound ⟨7, 6⟩ (by norm_num) (by norm_num) (by norm_num)).1
  have h2 := (c10_tab_wraparound ⟨7, 0⟩ (by norm_num) (by norm_num) (by norm_num)).2
  constructor
  · rw [h1]; norm_num
  · rw [h2]; norm_num

/-! ## C6 — release before press, at most one d-pad button held -/

theorem pressedOf_card_le_one (h : Hat) : (pressedOf h).card ≤ 1 := by
  unfold pressedOf
  cases hatButtons h with
  | some b => simp
  | none => simp

theorem applyEvents_append (s : Finset ℕ) (l1 l2 : List Event) :
    applyEvents s (l1 ++ l2) = applyEvents (applyEvents s l1) l2 :=
  List.foldl_append applyEvent s l1 l2

/-- Applying one hat transition's events to the pressed set of the old
tuple yields the pressed set of the new tuple. -/
theorem applyEvents_hatStep (last h : Hat) :
    applyEvents (pressedOf last) (hatStep last h) = pressedOf h := by
  by_cases hne : h = last
  · subst hne
    simp [hatStep, applyEvents]
  · rw [hatStep, if_pos hne]
    cases hl : hatButtons last with
    | some b =>
      cases hh : hatButtons h with
      | some c =>
        simp [applyEvents, applyEvent, pressedOf, hl, hh, Finset.erase_singleton]
      | none =>
        simp [applyEvents, applyEvent, pressedOf, hl, hh, Finset.erase_singleton]
    | none =>
      cases hh : hatButtons h with
      | some c => simp [applyEvents, applyEvent, pressedOf, hl, hh]
      | none => simp [applyEvents, applyEvent, pressedOf, hl, hh]

/-- Within one hat transition, every intermediate pressed set (every
prefix of the transition's events) holds at most one button: the release
comes first. -/
theorem hatStep_prefix_card (last h : Hat) (n : ℕ) :
    (applyEvents (pressedOf last) ((hatStep last h).take n)).card ≤ 1 := by
  by_cases hne : h = last
  · subst hne
    simpa [hatStep, applyEvents] using pressedOf_card_le_one h
  · rw [hatStep, if_pos hne]
    cases hl : hatButtons last with
    | some b =>
      cases hh : hatButtons h with
      | some c =>
        match n with
        | 0 => simp [applyEvents, pressedOf, hl]
        | 1 => simp [applyEvents, applyEvent, pressedOf, hl, Finset.erase_singleton]
        | (m + 2) =>
          simp [applyEvents, applyEvent, pressedOf, hl, Finset.erase_singleton]
      | none =>
        match n with
        | 0 => simp [applyEvents, pressedOf, hl]
        | (m + 1) =>
          simp [applyEvents, applyEvent, pressedOf, hl, Finset.erase_singleton]
    | none =>
      cases hh : hatButtons h with
      | some c =>
        match n with
        | 0 => simp [applyEvents, pressedOf, hl]
        | (m + 1) => simp [applyEvents, applyEvent, pressedOf, hl]
      | none => simp [applyEvents, pressedOf, hl]

/-- Across any sample sequence, every prefix of the emitted event stream
leaves at most one virtual d-pad button pressed. -/
theorem hatEvents_prefix_card (samples : List Hat) :
    ∀ (last : Hat) (n : ℕ),
      (applyEvents (pressedOf last) ((hatEvents last samples).take n)).card ≤ 1 := by
  induction samples with
  | nil =>
    intro last n
    simpa [hatEvents, applyEvents] using pressedOf_card_le_one last
  | cons h hs ih =>
    intro last n
    rw [hatEvents, List.take_append_eq_append_take, applyEvents_append]
    by_cases hn : (hatStep last h).length ≤ n
    · rw [List.take_of_length_le hn, applyEvents_hatStep]
      exact ih h (n - (hatStep last h).length)
    · have h0 : n - (hatStep last h).length = 0 := by omega
      rw [h0]
      simpa [applyEvents] using hatStep_prefix_card last h n

/-- C6: on every hat change between two mapped tuples the release of the
old virtual button precedes the press of the new one; consequently, along
any hat sample sequence started at the neutral (0,0) state, every prefix
of the emitted event stream leaves at most one virtual d-pad button
pressed; and the concrete sequence (0,0)→(0,1)→(−1,0)→(0,0) emits exactly
press(12), release(12), press(14), release(14). -/
theorem c6_release_before_press :
    (∀ (last h : Hat) (b c : ℕ), h ≠ last →
      hatButtons last = some b → hatButtons h = some c →
      hatStep last h = [Event.release b, Event.press c]) ∧
    (∀ (samples : List Hat) (n : ℕ),
      (applyEvents ∅ ((hatEvents (0, 0) samples).take n)).card ≤ 1) ∧
    hatEvents (0, 0) [(0, 1), (-1, 0), (0, 0)]
      = [Event.press 12, Event.release 12, Event.press 14, Event.release 14] := by
  refine ⟨?_, ?_, by decide⟩
  · intro last h b c hne hl hh
    simp [hatStep, hne, hl, hh]
  · intro samples n
    have hstart : (∅ : Finset ℕ) = pressedOf (0, 0) := by decide
    rw [hstart]
    exact hatEvents_prefix_card samples (0, 0) n

/-- C6 witness: the per-transition shape at (0,1) → (−1,0), and the prefix
invariant at the sample sequence [(0,1), (1,1)] cut after three events. -/
theorem c6_release_before_press_witness :
    hatStep (0, 1) (-1, 0) = [Event.release 12, Event.press 14] ∧
    (applyEvents ∅ ((hatEvents (0, 0) [(0, 1), (1, 1)]).take 3)).card ≤ 1 :=
  ⟨c6_release_before_press.1 (0, 1) (-1, 0) 12 14 (by decide) rfl rfl,
   c6_release_before_press.2.1 [(0, 1), (1, 1)] 3⟩

/-! ## C5 — spatial focus navigation -/

theorem firstArgmin_eq_none_iff (f : Pt → ℤ) (l : List Pt) :
    firstArgmin f l = none ↔ l = [] := by
  cases l with
  | nil => simp [firstArgmin]
  | cons w ws =>
    simp only [firstArgmin]
    cases firstArgmin f ws with
    | none => simp
    | some b =>
      by_cases h : f w ≤ f b <;> simp [h]

/-- The first argmin is a member attaining the minimum. -/
theorem firstArgmin_min (f : Pt → ℤ) :
    ∀ (l : List Pt) (b : Pt), firstArgmin f l = some b →
      b ∈ l ∧ ∀ w ∈ l, f b ≤ f w := by
  intro l
  induction l with
  | nil => intro b hb; simp [firstArgmin] at hb
  | cons w ws ih =>
    intro b hb
    cases hws : firstArgmin f ws with
    | none =>
      have hnil : ws = [] := (firstArgmin_eq_none_iff f ws).mp hws
      subst hnil
      simp only [firstArgmin] at hb
      injection hb with hb
      subst hb
      exact ⟨List.mem_singleton_self w, by simp⟩
    | some b' =>
      simp only [firstArgmin, hws] at hb
      rcases ih b' hws with ⟨hmem', hmin'⟩
      by_cases hle : f w ≤ f b'
      · rw [if_pos hle] at hb
        injection hb with hb
        subst hb
        refine ⟨List.mem_cons_self w ws, ?_⟩
        intro u hu
        rcases List.mem_cons.mp hu with hu | hu
        · exact hu ▸ le_refl _
        · exact le_trans hle (hmin' u hu)
      · rw [if_neg hle] at hb
        injection hb with hb
        subst hb
        refine ⟨List.mem_cons_of_mem w hmem', ?_⟩
        intro u hu
        rcases List.mem_cons.mp hu with hu | hu
        · exact hu ▸ le_of_not_le hle
        · exact hmin' u hu

/-- Tie-break: the first argmin splits the list into strictly worse
earlier elements and no-better later elements. -/
theorem firstArgmin_first (f : Pt → ℤ) :
    ∀ (l : List Pt) (b : Pt), firstArgmin f l = some b →
      ∃ l1 l2, l = l1 ++ b :: l2 ∧
        (∀ w ∈ l1, f b < f w) ∧ (∀ w ∈ l2, f b ≤ f w) := by
  intro l
  induction l with
  | nil => intro b hb; simp [firstArgmin] at hb
  | cons w ws ih =>
    intro b hb
    cases hws : firstArgmin f ws with
    | none =>
      have hnil : ws = [] := (firstArgmin_eq_none_iff f ws).mp hws
      subst hnil
      simp only [firstArgmin] at hb
      injection hb with hb
      subst hb
      exact ⟨[], [], rfl, by simp, by simp⟩
    | some b' =>
      simp only [firstArgmin, hws] at hb
      by_cases hle : f w ≤ f b'
      · rw [if_pos hle] at hb
        injection hb with hb
        subst hb
        refine ⟨[], ws, rfl, by simp, ?_⟩
        intro u hu
        exact le_trans hle ((firstArgmin_min f ws b' hws).2 u hu)
      · rw [if_neg hle] at hb
        injection hb with hb
        subst hb
        rcases ih b' hws with ⟨l1, l2, hsplit, hlt, hge⟩
        refine ⟨w :: l1, l2, by rw [hsplit]; rfl, ?_, hge⟩
        intro u hu
        rcases List.mem_cons.mp hu with hu | hu
        · exact hu ▸ lt_of_not_le hle
        · exact hlt u hu

/-- Dropping a later element that is no better than the head does not
change the first argmin. -/
theorem firstArgmin_cons_cons (f : Pt → ℤ) (a w : Pt) (l : List Pt)
    (hle : f a ≤ f w) :
    firstArgmin f (a :: w :: l) = firstArgmin f (a :: l) := by
  cases hl : firstArgmin f l with
  | none =>
    have : l = [] := (firstArgmin_eq_none_iff f l).mp hl
    subst this
    simp [firstArgmin, hle]
  | some b =>
    by_cases hwb : f w ≤ f b
    · have hab : f a ≤ f b := le_trans hle hwb
      simp [firstArgmin, hl, hwb, hle, hab]
    · simp [firstArgmin, hl, hwb]

/-- The candidate fold started from a seeded best candidate computes the
first argmin of the seed followed by the in-direction later candidates. -/
theorem navFold_seeded (cur : Pt) (d : Dir) :
    ∀ (ws : List Pt) (a : Pt),
      (ws.foldl (navStep cur d) (some (a, scoreOf cur d a))).map Prod.fst
        = firstArgmin (scoreOf cur d) (a :: ws.filter (inDirOf cur d)) := by
  intro ws
  induction ws with
  | nil => intro a; simp [firstArgmin]
  | cons w ws ih =>
    intro a
    rw [List.foldl_cons]
    by_cases hw : inDirOf cur d w
    · by_cases hlt : scoreOf cur d w < scoreOf cur d a
      · have hstep : navStep cur d (some (a, scoreOf cur d a)) w
            = some (w, scoreOf cur d w) := by
          simp [navStep, hw, hlt]
        rw [hstep, ih w, List.filter_cons_of_pos hw]
        cases hfa : firstArgmin (scoreOf cur d) (w :: ws.filter (inDirOf cur d)) with
        | none =>
          rw [firstArgmin_eq_none_iff] at hfa
          cases hfa
        | some b =>
          have hba : scoreOf cur d b < scoreOf cur d a :=
            lt_of_le_of_lt
              ((firstArgmin_min _ _ b hfa).2 w (List.mem_cons_self w _)) hlt
          rw [firstArgmin, hfa]
          exact (if_neg (not_le.mpr hba)).symm
      · have hstep : navStep cur d (some (a, scoreOf cur d a)) w
            = some (a, scoreOf cur d a) := by
          simp [navStep, hw, hlt]
        rw [hstep, ih a, List.filter_cons_of_pos hw,
          firstArgmin_cons_cons _ _ _ _ (le_of_not_lt hlt)]
    · have hstep : navStep cur d (some (a, scoreOf cur d a)) w
          = some (a, scoreOf cur d a) := by
        simp [navStep, hw]
      rw [hstep, ih a, List.filter_cons_of_neg (by simpa using hw)]

/-- `_navigate_focus` computes the first argmin of the score over the
in-direction candidates, in traversal order. -/
theorem navigateFocus_eq_firstArgmin (cur : Pt) (cands : List Pt) (d : Dir) :
    navigateFocus cur cands d
      = firstArgmin (scoreOf cur d) (cands.filter (inDirOf cur d)) := by
  induction cands with
  | nil => rfl
  | cons w ws ih =>
    rw [navigateFocus, List.foldl_cons]
    by_cases hw : inDirOf cur d w
    · have hstep : navStep cur d none w = some (w, scoreOf cur d w) := by
        simp [navStep, hw]
      rw [hstep, navFold_seeded cur d ws w, List.filter_cons_of_pos hw]
    · have hstep : navStep cur d none w = none := by
        simp [navStep, hw]
      rw [hstep, List.filter_cons_of_neg (by simpa using hw)]
      exact ih

/-- C5: navigation considers exactly the candidates whose displacement
exceeds 20 along the direction's primary axis, scores them as primary-axis
distance plus twice the absolute perpendicular distance, and focuses the
first candidate in traversal order attaining the minimal score (earlier
in-direction candidates score strictly worse, later ones no better); with
current (100,100) and candidates (100,200), (300,100), (50,50),
navigate("down") selects (100,200). -/
theorem c5_spatial_navigation (cur : Pt) (cands : List Pt) (d : Dir) :
    navigateFocus cur cands d
        = firstArgmin (scoreOf cur d) (cands.filter (inDirOf cur d)) ∧
    (∀ b, navigateFocus cur cands d = some b →
      ∃ l1 l2, cands.filter (inDirOf cur d) = l1 ++ b :: l2 ∧
        (∀ w ∈ l1, scoreOf cur d b < scoreOf cur d w) ∧
        (∀ w ∈ l2, scoreOf cur d b ≤ scoreOf cur d w)) ∧
    (∀ dx dy : ℤ,
      (inDirection Dir.down dx dy = true ↔ 20 < dy) ∧
      (inDirection Dir.up dx dy = true ↔ dy < -20) ∧
      (inDirection Dir.right dx dy = true ↔ 20 < dx) ∧
      (inDirection Dir.left dx dy = true ↔ dx < -20) ∧
      score Dir.down dx dy = dy + 2 * |dx| ∧
      score Dir.up dx dy = -dy + 2 * |dx| ∧
      score Dir.right dx dy = dx + 2 * |dy| ∧
      score Dir.left dx dy = -dx + 2 * |dy|) ∧
    navigateFocus ⟨100, 100⟩ [⟨100, 200⟩, ⟨300, 100⟩, ⟨50, 50⟩] Dir.down
      = some ⟨100, 200⟩ := by
  refine ⟨navigateFocus_eq_firstArgmin cur cands d, ?_, ?_, by decide⟩
  · intro b hb
    rw [navigateFocus_eq_firstArgmin cur cands d] at hb
    exact firstArgmin_first (scoreOf cur d) _ b hb
  · intro dx dy
    refine ⟨?_, ?_, ?_, ?_, by simp [score]; ring, by simp [score]; ring,
      by simp [score]; ring, by simp [score]; ring⟩ <;>
      simp [inDirection]

/-- C5 witness: the tie-break decomposition at the concrete example. -/
theorem c5_spatial_navigation_witness :
    ∃ l1 l2,
      ([⟨100, 200⟩, ⟨300, 100⟩, ⟨50, 50⟩] : List Pt).filter
          (inDirOf ⟨100, 100⟩ Dir.down) = l1 ++ (⟨100, 200⟩ : Pt) :: l2 ∧
      (∀ w ∈ l1, scoreOf ⟨100, 100⟩ Dir.down ⟨100, 200⟩ < scoreOf ⟨100, 100⟩ Dir.down w) ∧
      (∀ w ∈ l2, scoreOf ⟨100, 100⟩ Dir.down ⟨100, 200⟩ ≤ scoreOf ⟨100, 100⟩ Dir.down w) :=
  (c5_spatial_navigation ⟨100, 100⟩ [⟨100, 200⟩, ⟨300, 100⟩, ⟨50, 50⟩] Dir.down).2.1
    ⟨100, 200⟩ (by decide)

end DmxControl
